import Mathlib

/-!
Verification development for `src/power-control.py`, a single-file
MicroPython power-level controller.

The definitions below are a shallow embedding of the classes `GetCommand`,
`PIDControl` and `PowerControl` from the source.  Python floats are
modelled as rationals, millisecond timestamps as unbounded integers, and
fallible Python code as `Option`/`Except` values.  The scheduler object
`PollLooper` is imported by the source from the module `poll_looper`,
which is not part of this repository's source tree; its three operations
used here are modelled from the spec's scheduler contract, as marked.
-/

/-- Modelled from the spec: `PollLooper.active_next_ms` (the spec's
`schedule_after(offset_ms)`).  `PollLooper` is not in `src/`; the spec says
it returns `now_ms() + offset_ms` in wraparound-safe arithmetic.  Times are
modelled as unbounded integers, so this is plain addition. -/
def active_next_ms (now offset : ℤ) : ℤ := now + offset

/-- Modelled from the spec: `PollLooper.active_now` (the spec's
`due(deadline_ms)`): true iff `now_ms()` has reached the deadline. -/
def active_now (now deadline : ℤ) : Bool := decide (deadline ≤ now)

/-- Modelled from the spec: `PollLooper.seconds_to_ms`, used by
`PowerControl.__init__` to convert the standby timeout to milliseconds. -/
def seconds_to_ms (s : ℤ) : ℤ := s * 1000

/-- The `(on_ms, off_ms)` pair computed by `PowerControl.new_power_level`
(src/power-control.py lines 557-570).  `M` is `self.minimum_pulse_ms`
(default `MINIMUM_PULSE_WIDTH_MS = 2000`).  Python's `int()` truncates
toward zero; in both branches where it is applied the argument is positive,
so it is `Int.floor` here.  Python's literal `0.01` is the exact rational
`1/100` in this model. -/
def pulseDurations (M : ℤ) (level : ℚ) : ℤ × ℤ :=
  if 99 < level then
    (999999, 0)
  else if 50 ≤ level then
    (⌊(M : ℚ) / ((100 - level) * (1 / 100))⌋ - M, M)
  else if 1 ≤ level then
    (M, ⌊(M : ℚ) / (level * (1 / 100))⌋ - M)
  else
    (0, 999999)

/-- Which arm of the `new_power_level` branch cascade
(lines 557-570: `> 99.0`, `>= 50.0`, `>= 1.0`, else) a level selects. -/
inductive PulseBranch
  | alwaysOn
  | highDuty
  | lowDuty
  | alwaysOff
deriving DecidableEq

/-- Branch selected by the cascade in `PowerControl.new_power_level`. -/
def selectBranch (level : ℚ) : PulseBranch :=
  if 99 < level then PulseBranch.alwaysOn
  else if 50 ≤ level then PulseBranch.highDuty
  else if 1 ≤ level then PulseBranch.lowDuty
  else PulseBranch.alwaysOff

/-- The engine-relevant mutable attributes of a `PowerControl` instance.
Display state and the physical pin are omitted; `power_on` mirrors the pin
(`set_power_on`/`set_power_off` drive the pin and the flag together). -/
structure PCState where
  power_level : ℚ
  minimum_pulse_ms : ℤ
  on_ms : ℤ
  off_ms : ℤ
  power_on : Bool
  change_ms : ℤ
  standby : Bool
  standby_timeout : ℤ
  standby_power_level : ℚ
  last_update_ms : ℤ
deriving DecidableEq

/-- The bus record of the `powercontrol` topic (the spec's PowerCommand):
`power_level` plus the bus timestamp `last_update_ms`. -/
structure PowerRecord where
  power_level : ℚ
  last_update_ms : ℤ
deriving DecidableEq

/-- `PowerControl.new_power_level` (lines 549-580): records the direction of
change, stores the new level, computes the pulse durations, and immediately
drives the output in the direction of the change, scheduling the next flip
accordingly.  Display calls are omitted. -/
def new_power_level (now : ℤ) (s : PCState) (level : ℚ) : PCState :=
  let power_increase : Bool := decide (s.power_level < level)
  let d := pulseDurations s.minimum_pulse_ms level
  { s with
    power_level := level
    on_ms := d.1
    off_ms := d.2
    power_on := power_increase
    change_ms :=
      if power_increase then active_next_ms now d.1
      else active_next_ms now d.2 }

/-- `PowerControl.set_standby_on` (lines 523-535): sets the standby flag and
recomputes the plan at `standby_power_level`.  The line that would overwrite
the bus record's `power_level` is commented out in the source, so the bus is
not touched (the function only reads `self`). -/
def set_standby_on (now : ℤ) (s : PCState) : PCState :=
  new_power_level now { s with standby := true } s.standby_power_level

/-- `PowerControl.set_standby_off` (lines 536-547): clears the standby flag
(a no-op when it is already clear; the display update is omitted). -/
def set_standby_off (s : PCState) : PCState :=
  { s with standby := false }

/-- The free-running square-wave tail of `PowerControl.poll_it`
(lines 512-521): once the stored transition time is due, flip the output and
schedule the next flip with the other duration, skipping zero durations. -/
def pulse_flip (now : ℤ) (s : PCState) : PCState :=
  if active_now now s.change_ms then
    if s.power_on then
      if 0 < s.off_ms then
        { s with power_on := false, change_ms := active_next_ms now s.off_ms }
      else s
    else
      if 0 < s.on_ms then
        { s with power_on := true, change_ms := active_next_ms now s.on_ms }
      else s
  else s

/-- `PowerControl.poll_it` (lines 490-521).  The bus record is read-only in
this method (its only write, in `set_standby_on`, is commented out in the
source), so the returned record is the argument threaded through.
`time.ticks_diff(current, last)` is modelled as `now - last`. -/
def poll_it (now : ℤ) (bus : PowerRecord) (s : PCState) : PCState × PowerRecord :=
  if s.last_update_ms ≠ bus.last_update_ms then
    (if bus.power_level ≠ s.power_level then
      new_power_level now
        (set_standby_off { s with last_update_ms := bus.last_update_ms })
        bus.power_level
    else
      set_standby_off { s with last_update_ms := bus.last_update_ms }, bus)
  else if s.standby = false ∧ s.standby_power_level < s.power_level ∧
      s.standby_timeout < now - s.last_update_ms then
    (set_standby_on now s, bus)
  else
    (pulse_flip now s, bus)

/-- `PowerControl.__init__` (lines 374-488), display setup omitted: the
applied level starts at 50.0 (the source comments "Should be zero"),
standby is off, the output is driven off, the bus record is written with
`power_level` 0, and `new_power_level(50.0)` computes the initial plan.
The fields `on_ms`, `off_ms`, `change_ms` are placeholders here: in Python
the attributes do not exist until `new_power_level` assigns them, which
happens below before any read. -/
def powerControlInit (now : ℤ) : PCState × PowerRecord :=
  let s0 : PCState :=
    { power_level := 50
      minimum_pulse_ms := 2000
      on_ms := 0
      off_ms := 0
      power_on := false
      change_ms := 0
      standby := false
      standby_timeout := seconds_to_ms 60
      standby_power_level := 20
      last_update_ms := now }
  (new_power_level now s0 s0.power_level,
   { power_level := 0, last_update_ms := now })

/-- JSON values as they reach the command handlers.  Only the shapes the
handlers inspect are distinguished: numbers, strings, and anything else
(on which Python's `float()` raises and the handlers' bare `except`
catches). -/
inductive JValue
  | num (q : ℚ)
  | str (s : String)
  | null
deriving DecidableEq

/-- Split a character list at the first `'.'`, if any. -/
def splitAtDot : List Char → List Char × Option (List Char)
  | [] => ([], none)
  | c :: cs =>
    if c = '.' then ([], some cs)
    else
      let r := splitAtDot cs
      (c :: r.1, r.2)

/-- True iff every character is a decimal digit. -/
def allDigits (cs : List Char) : Bool :=
  cs.all fun c => decide ('0' ≤ c ∧ c ≤ '9')

/-- Numeric value of a digit list, most significant first. -/
def digitsVal (cs : List Char) : ℕ :=
  cs.foldl (fun a c => a * 10 + (c.toNat - 48)) 0

/-- Python's builtin `float()` on a plain decimal literal: optional sign,
digits, optional fraction, at least one digit overall.  Exponent, infinity
and NaN forms are out of scope for the command payloads modelled here;
any other string makes `float()` raise, modelled as `none`. -/
def parseFloat (cs : List Char) : Option ℚ :=
  let sb : ℚ × List Char :=
    match cs with
    | [] => (1, [])
    | c :: rest =>
      if c = '-' then (-1, rest)
      else if c = '+' then (1, rest)
      else (1, c :: rest)
  let ip := (splitAtDot sb.2).1
  match (splitAtDot sb.2).2 with
  | none =>
    if ip ≠ [] ∧ allDigits ip = true then
      some (sb.1 * (digitsVal ip : ℚ))
    else none
  | some fp =>
    if (ip ≠ [] ∨ fp ≠ []) ∧ allDigits ip = true ∧ allDigits fp = true then
      some (sb.1 * ((digitsVal ip : ℚ) + (digitsVal fp : ℚ) / (10 : ℚ) ^ fp.length))
    else none

/-- Python's `float(v)` on the JSON values above: numbers pass through,
strings are parsed as decimal literals, anything else raises (`none`). -/
def pyFloat : JValue → Option ℚ
  | JValue.num q => some q
  | JValue.str s => parseFloat s.data
  | JValue.null => none

/-- Round half to even on an exact rational, as CPython's `round` does on
the value a float denotes. -/
def roundHalfEven (x : ℚ) : ℤ :=
  if x - ⌊x⌋ < 1 / 2 then ⌊x⌋
  else if 1 / 2 < x - ⌊x⌋ then ⌊x⌋ + 1
  else if ⌊x⌋ % 2 = 0 then ⌊x⌋ else ⌊x⌋ + 1

/-- Python's `round(x, 1)`: round to the nearest multiple of `1/10`,
halves to even. -/
def pyRound1 (x : ℚ) : ℚ := (roundHalfEven (x * 10) : ℚ) / 10

/-- Dictionary lookup on a JSON object's field list. -/
def lookupField (params : List (String × JValue)) (k : String) : Option JValue :=
  params.lookup k

/-- `GetCommand.set_power_level` (lines 287-301): returns the value written
to the `powercontrol` topic, or `none` when nothing is written (missing
field, or `float()` raised and the bare `except` swallowed it).  Note there
is no range clamp on this path. -/
def set_power_level (params : List (String × JValue)) : Option ℚ :=
  match lookupField params "power_level" with
  | none => none
  | some v =>
    match pyFloat v with
    | none => none
    | some q => some (pyRound1 q)

/-- `PIDControl.poll_it`'s write to the `powercontrol` topic (line 359):
the PID output clamped to `[0, 100]` and rounded to one decimal. -/
def pid_power_write (output : ℚ) : ℚ :=
  pyRound1 (max (min output 100) 0)

/-- Python exceptions that can escape the command handlers.  `OSError` is
not listed: `GetCommand.poll_it` catches it as the normal no-data case. -/
inductive PyError
  | nameError
  | valueError
  | unicodeError
deriving DecidableEq

/-- Bus effects a datagram can cause. -/
inductive BusAction
  | writePower (q : ℚ)
  | shutdownReq
deriving DecidableEq

/-- A decoded JSON-RPC request object, keeping the three fields the handler
looks up (each `none` when the field is absent). -/
structure Request where
  jsonrpc : Option JValue
  method : Option JValue
  params : Option (List (String × JValue))
deriving DecidableEq

/-- Topic name `GetCommand.process_request` writes `pid_update` params to
(line 283). -/
def pid_update_write_topic : String := "pid_settings"

/-- Topic name `PIDControl.__init__` creates and `PIDControl.poll_it`
watches (line 334). -/
def pid_bridge_watch_topic : String := "pid_control"

/-- `GetCommand.process_request` (lines 267-285).  Requests missing
`jsonrpc`, `method` or `params` are logged and dropped (`ok none`).  The
`pid_update` arm evaluates the undefined name `rquest` (line 281, a typo
for `request`), so Python raises `NameError` before any write; there is no
enclosing handler for it.  Unknown methods fall through with no effect. -/
def process_request (r : Request) : Except PyError (Option BusAction) :=
  match r.jsonrpc with
  | none => Except.ok none
  | some _ =>
    match r.method with
    | none => Except.ok none
    | some m =>
      match r.params with
      | none => Except.ok none
      | some ps =>
        if m = JValue.str "set_power_level" then
          Except.ok ((set_power_level ps).map BusAction.writePower)
        else if m = JValue.str "pid_update" then
          Except.error PyError.nameError
        else if m = JValue.str "shutdown" then
          Except.ok (some BusAction.shutdownReq)
        else Except.ok none

/-- One datagram as seen by the UDP arm of `GetCommand.poll_it`
(lines 154-166), staged by what happens to it: `recvfrom` raising `OSError`
(no data), `decode()` raising `UnicodeError`, `json.loads` raising
`ValueError`, or a decoded object. -/
inductive Datagram
  | noData
  | badBytes
  | badJson (s : String)
  | parsed (r : Request)
deriving DecidableEq

/-- Handling of one datagram by the UDP arm of `GetCommand.poll_it`: the
`try` block catches only `OSError` (the no-data break); decode and JSON
errors propagate out of `poll_it`, as does the `pid_update` `NameError`. -/
def udp_handle : Datagram → Except PyError (Option BusAction)
  | Datagram.noData => Except.ok none
  | Datagram.badBytes => Except.error PyError.unicodeError
  | Datagram.badJson _ => Except.error PyError.valueError
  | Datagram.parsed r => process_request r

/-- A concrete engine state for instantiating the standby theorems: applied
level 60, fallback 20, timeout 60000 ms, last bus update seen at time 0. -/
def standby_demo_state : PCState :=
  { power_level := 60
    minimum_pulse_ms := 2000
    on_ms := 3000
    off_ms := 2000
    power_on := true
    change_ms := 100000
    standby := false
    standby_timeout := 60000
    standby_power_level := 20
    last_update_ms := 0 }

/-- A concrete bus record matching `standby_demo_state`'s last seen
timestamp. -/
def standby_demo_bus : PowerRecord :=
  { power_level := 60, last_update_ms := 0 }

/-- `standby_demo_state` after the engine has entered standby: the applied
level was overridden with the fallback level 20. -/
def standby_active_state : PCState :=
  { standby_demo_state with standby := true, power_level := 20 }

/-- A bus record carrying a fresh command timestamp (a writer re-sent
level 60 at time 70000). -/
def refreshed_bus : PowerRecord :=
  { power_level := 60, last_update_ms := 70000 }

/-! ### Helper lemmas -/

/-- Rewrites the source's division by `a * 0.01` as division by `a` of the
hundredfold numerator. -/
lemma div_hundredth (m a : ℚ) (ha : a ≠ 0) :
    m / (a * (1 / 100)) = 100 * m / a := by
  field_simp
  ring

/-- Core arithmetic shared by the two proportional branches of
`pulseDurations`: for a divisor `a ∈ [1, 50]` and a positive minimum pulse
`M`, the truncated total period `T = ⌊100·M / a⌋` is at least `2·M`, brackets
`100·M` between `a·T` and `a·(T+1)`, and `T - M` is exactly the floor of the
spec's formula. -/
lemma pulse_core (M : ℤ) (a : ℚ) (hM : 0 < M) (ha1 : 1 ≤ a) (ha50 : a ≤ 50) :
    2 * M ≤ ⌊100 * (M : ℚ) / a⌋ ∧
    a * (⌊100 * (M : ℚ) / a⌋ : ℚ) ≤ 100 * M ∧
    100 * (M : ℚ) < a * ((⌊100 * (M : ℚ) / a⌋ : ℚ) + 1) ∧
    ⌊100 * (M : ℚ) / a⌋ - M = ⌊(M : ℚ) * (100 - a) / a⌋ := by
  have ha0 : (0 : ℚ) < a := lt_of_lt_of_le one_pos ha1
  have hM' : (0 : ℚ) < (M : ℚ) := by exact_mod_cast hM
  have hane : a ≠ 0 := ne_of_gt ha0
  refine ⟨?_, ?_, ?_, ?_⟩
  · rw [Int.le_floor, le_div_iff₀ ha0]
    push_cast
    nlinarith [mul_nonneg hM'.le (by linarith : (0 : ℚ) ≤ 50 - a)]
  · have h := Int.floor_le (100 * (M : ℚ) / a)
    have h2 := mul_le_mul_of_nonneg_left h ha0.le
    calc a * (⌊100 * (M : ℚ) / a⌋ : ℚ) ≤ a * (100 * M / a) := h2
      _ = 100 * M := by field_simp
  · have h := Int.lt_floor_add_one (100 * (M : ℚ) / a)
    have h2 := mul_lt_mul_of_pos_left h ha0
    calc 100 * (M : ℚ) = a * (100 * M / a) := by field_simp
      _ < a * ((⌊100 * (M : ℚ) / a⌋ : ℚ) + 1) := h2
  · have hrw : (M : ℚ) * (100 - a) / a = 100 * M / a - M := by
      field_simp
      ring
    rw [hrw, Int.floor_sub_int]

/-- `roundHalfEven` never rounds a nonnegative value below zero. -/
lemma roundHalfEven_nonneg (x : ℚ) (hx : 0 ≤ x) : 0 ≤ roundHalfEven x := by
  unfold roundHalfEven
  have h0 : (0 : ℤ) ≤ ⌊x⌋ := Int.floor_nonneg.mpr hx
  split_ifs <;> omega

/-- `roundHalfEven` of a value below an integer bound stays below it. -/
lemma roundHalfEven_le (x : ℚ) (B : ℤ) (h : x ≤ B) : roundHalfEven x ≤ B := by
  unfold roundHalfEven
  have hfl : ⌊x⌋ ≤ B := by
    calc ⌊x⌋ ≤ ⌊(B : ℚ)⌋ := Int.floor_le_floor h
      _ = B := Int.floor_intCast B
  have hx := Int.floor_le x
  split_ifs with h1 h2 h3
  · exact hfl
  · have hQ : (⌊x⌋ : ℚ) < B := by linarith
    have : ⌊x⌋ < B := by exact_mod_cast hQ
    omega
  · exact hfl
  · have heq : x - ⌊x⌋ = 1 / 2 := le_antisymm (not_lt.mp h2) (not_lt.mp h1)
    have hQ : (⌊x⌋ : ℚ) < B := by linarith
    have : ⌊x⌋ < B := by exact_mod_cast hQ
    omega

/-- The bus record passes through `poll_it` unchanged: the only write the
source ever had there is commented out. -/
lemma poll_it_bus_unchanged (now : ℤ) (bus : PowerRecord) (s : PCState) :
    (poll_it now bus s).2 = bus := by
  unfold poll_it
  split_ifs <;> rfl

/-- When the bus timestamp differs from the last one seen, `poll_it` leaves
standby and ends up applying the bus's level. -/
lemma poll_it_ts_changed (now : ℤ) (bus : PowerRecord) (s : PCState)
    (h : s.last_update_ms ≠ bus.last_update_ms) :
    (poll_it now bus s).1.standby = false ∧
    (poll_it now bus s).1.power_level = bus.power_level := by
  unfold poll_it
  rw [if_pos h]
  by_cases hpl : bus.power_level ≠ s.power_level
  · rw [if_pos hpl]
    exact ⟨rfl, rfl⟩
  · rw [if_neg hpl]
    exact ⟨rfl, (not_ne_iff.mp hpl).symm⟩

/-- When the bus timestamp is unchanged and the standby conditions all hold,
`poll_it` runs `set_standby_on`. -/
lemma poll_it_standby_entry (now : ℤ) (bus : PowerRecord) (s : PCState)
    (hts : s.last_update_ms = bus.last_update_ms)
    (hcond : s.standby = false ∧ s.standby_power_level < s.power_level ∧
      s.standby_timeout < now - s.last_update_ms) :
    (poll_it now bus s).1 = set_standby_on now s := by
  unfold poll_it
  rw [if_neg (not_ne_iff.mpr hts), if_pos hcond]

/-- When the bus timestamp is unchanged and the standby conditions do not
all hold, `poll_it` only runs the free-running flip. -/
lemma poll_it_no_event (now : ℤ) (bus : PowerRecord) (s : PCState)
    (hts : s.last_update_ms = bus.last_update_ms)
    (hcond : ¬ (s.standby = false ∧ s.standby_power_level < s.power_level ∧
      s.standby_timeout < now - s.last_update_ms)) :
    (poll_it now bus s).1 = pulse_flip now s := by
  unfold poll_it
  rw [if_neg (not_ne_iff.mpr hts), if_neg hcond]

/-- The square-wave flip never touches the standby flag. -/
lemma pulse_flip_standby (now : ℤ) (s : PCState) :
    (pulse_flip now s).standby = s.standby := by
  unfold pulse_flip
  split_ifs <;> rfl

/-- The square-wave flip never touches the applied level. -/
lemma pulse_flip_power_level (now : ℤ) (s : PCState) :
    (pulse_flip now s).power_level = s.power_level := by
  unfold pulse_flip
  split_ifs <;> rfl

/-! ### Claim theorems -/

/-- C1: for every requested level in `[1, 99]`, the plan computed by
`new_power_level` realizes a duty cycle of `level/100` within one rounding
unit of the period (`|100·on − level·(on+off)| < 100`), the minority-side
pulse equals the minimum pulse width `M` (`min on off = M`), and the
majority-side pulse is exactly the integer truncation of the spec's formula
(`off = M` and `on = ⌊M·level/(100−level)⌋` for `50 ≤ level ≤ 99`;
`on = M` and `off = ⌊M·(100−level)/level⌋` for `1 ≤ level < 50`). -/
theorem pulse_plan_duty_cycle (M : ℤ) (level : ℚ) (hM : 0 < M)
    (h1 : 1 ≤ level) (h99 : level ≤ 99) :
    |(100 : ℚ) * ((pulseDurations M level).1 : ℚ) -
        level * (((pulseDurations M level).1 : ℚ) +
          ((pulseDurations M level).2 : ℚ))| < 100 ∧
    min (pulseDurations M level).1 (pulseDurations M level).2 = M ∧
    (50 ≤ level → (pulseDurations M level).2 = M ∧
      (pulseDurations M level).1 = ⌊(M : ℚ) * level / (100 - level)⌋) ∧
    (level < 50 → (pulseDurations M level).1 = M ∧
      (pulseDurations M level).2 = ⌊(M : ℚ) * (100 - level) / level⌋) := by
  have h99' : ¬ (99 < level) := not_lt.mpr h99
  by_cases h50 : 50 ≤ level
  · have ha0 : (0 : ℚ) < 100 - level := by linarith
    have ha1 : (1 : ℚ) ≤ 100 - level := by linarith
    have ha50 : (100 : ℚ) - level ≤ 50 := by linarith
    have hp : pulseDurations M level =
        (⌊100 * (M : ℚ) / (100 - level)⌋ - M, M) := by
      unfold pulseDurations
      rw [if_neg h99', if_pos h50, div_hundredth _ _ (ne_of_gt ha0)]
    obtain ⟨hT2, hTle, hTlt, hTsub⟩ := pulse_core M (100 - level) hM ha1 ha50
    rw [hp]
    dsimp only
    refine ⟨?_, ?_, fun _ => ⟨rfl, ?_⟩, fun hlt => absurd h50 (not_le.mpr hlt)⟩
    · rw [abs_lt]
      push_cast
      constructor
      · nlinarith [hTlt, ha50]
      · nlinarith [hTle]
    · exact min_eq_right (by omega)
    · have hl : (M : ℚ) * (100 - (100 - level)) / (100 - level) =
          (M : ℚ) * level / (100 - level) := by ring_nf
      rw [hl] at hTsub
      exact hTsub
  · have hlt50 : level < 50 := not_le.mp h50
    have ha0 : (0 : ℚ) < level := by linarith
    have ha50 : level ≤ 50 := le_of_lt hlt50
    have hp : pulseDurations M level =
        (M, ⌊100 * (M : ℚ) / level⌋ - M) := by
      unfold pulseDurations
      rw [if_neg h99', if_neg h50, if_pos h1, div_hundredth _ _ (ne_of_gt ha0)]
    obtain ⟨hT2, hTle, hTlt, hTsub⟩ := pulse_core M level hM h1 ha50
    rw [hp]
    dsimp only
    refine ⟨?_, ?_, fun hge => absurd hge h50, fun _ => ⟨rfl, hTsub⟩⟩
    · rw [abs_lt]
      push_cast
      constructor
      · nlinarith [hTle]
      · nlinarith [hTlt, ha50]
    · exact min_eq_left (by omega)

/-- C1 witness: the theorem instantiated at the source's default minimum
pulse width `M = 2000` and level 75. -/
theorem pulse_plan_duty_cycle_witness :
    |(100 : ℚ) * ((pulseDurations 2000 75).1 : ℚ) -
        75 * (((pulseDurations 2000 75).1 : ℚ) +
          ((pulseDurations 2000 75).2 : ℚ))| < 100 ∧
    min (pulseDurations 2000 75).1 (pulseDurations 2000 75).2 = 2000 ∧
    ((50 : ℚ) ≤ 75 → (pulseDurations 2000 75).2 = 2000 ∧
      (pulseDurations 2000 75).1 = ⌊(2000 : ℚ) * 75 / (100 - 75)⌋) ∧
    ((75 : ℚ) < 50 → (pulseDurations 2000 75).1 = 2000 ∧
      (pulseDurations 2000 75).2 = ⌊(2000 : ℚ) * (100 - 75) / 75⌋) :=
  pulse_plan_duty_cycle 2000 75 (by norm_num) (by norm_num) (by norm_num)

/-- C3: the branch cascade of `new_power_level` makes division by zero
impossible: `level > 99` yields the always-on plan and `level < 1` the
always-off plan, neither of which divides; `level = 50` selects the
high-duty branch whose divisor `100 − level` stays at least 1, and
`level = 1` selects the low-duty branch whose divisor `level` stays at
least 1. -/
theorem division_guard_branches (M : ℤ) (l : ℚ) :
    (99 < l → pulseDurations M l = (999999, 0)) ∧
    (l < 1 → pulseDurations M l = (0, 999999)) ∧
    selectBranch 50 = PulseBranch.highDuty ∧
    selectBranch 1 = PulseBranch.lowDuty ∧
    (selectBranch l = PulseBranch.highDuty → 1 ≤ 100 - l) ∧
    (selectBranch l = PulseBranch.lowDuty → 1 ≤ l) := by
  refine ⟨?_, ?_, by decide, by decide, ?_, ?_⟩
  · intro h
    unfold pulseDurations
    rw [if_pos h]
  · intro h
    unfold pulseDurations
    rw [if_neg (by linarith : ¬ (99 < l)), if_neg (by linarith : ¬ (50 ≤ l)),
      if_neg (not_le.mpr h)]
  · intro h
    unfold selectBranch at h
    by_cases h1 : (99 : ℚ) < l
    · rw [if_pos h1] at h
      exact absurd h (by decide)
    · by_cases h2 : (50 : ℚ) ≤ l
      · linarith [not_lt.mp h1]
      · rw [if_neg h1, if_neg h2] at h
        by_cases h3 : (1 : ℚ) ≤ l
        · rw [if_pos h3] at h
          exact absurd h (by decide)
        · rw [if_neg h3] at h
          exact absurd h (by decide)
  · intro h
    unfold selectBranch at h
    by_cases h1 : (99 : ℚ) < l
    · rw [if_pos h1] at h
      exact absurd h (by decide)
    · by_cases h2 : (50 : ℚ) ≤ l
      · rw [if_neg h1, if_pos h2] at h
        exact absurd h (by decide)
      · by_cases h3 : (1 : ℚ) ≤ l
        · exact h3
        · rw [if_neg h1, if_neg h2, if_neg h3] at h
          exact absurd h (by decide)

/-- C3 witness: the theorem instantiated at levels 100 (always-on arm) and
60 (high-duty arm's divisor bound). -/
theorem division_guard_branches_witness :
    pulseDurations 2000 100 = (999999, 0) ∧ (1 : ℚ) ≤ 100 - 60 :=
  ⟨(division_guard_branches 2000 100).1 (by norm_num),
   (division_guard_branches 2000 60).2.2.2.2.1 (by decide)⟩

/-- C5: `new_power_level` immediately commits to the transition in the
direction of the change: a strictly higher level drives the output on with
the next flip at `now + on_ms`; a lower or equal level drives it off with
the next flip at `now + off_ms`. -/
theorem new_level_direction_commit (now : ℤ) (s : PCState) (level : ℚ) :
    (s.power_level < level →
      (new_power_level now s level).power_on = true ∧
      (new_power_level now s level).change_ms =
        now + (new_power_level now s level).on_ms) ∧
    (level ≤ s.power_level →
      (new_power_level now s level).power_on = false ∧
      (new_power_level now s level).change_ms =
        now + (new_power_level now s level).off_ms) := by
  constructor
  · intro h
    have hd : decide (s.power_level < level) = true := decide_eq_true h
    unfold new_power_level active_next_ms
    simp only [hd, if_true]
    trivial
  · intro h
    have hd : decide (s.power_level < level) = false :=
      decide_eq_false (not_lt.mpr h)
    unfold new_power_level active_next_ms
    simp only [hd, if_false]
    trivial

/-- C5 witness: raising the demo state's level from 60 to 80 turns the
output on and schedules the flip one on-duration ahead. -/
theorem new_level_direction_commit_witness :
    (new_power_level 0 standby_demo_state 80).power_on = true ∧
    (new_power_level 0 standby_demo_state 80).change_ms =
      0 + (new_power_level 0 standby_demo_state 80).on_ms :=
  (new_level_direction_commit 0 standby_demo_state 80).1 (by decide)

/-- C10: immediately after `PowerControl.__init__`, the bus record written
stores `power_level` 0 while the engine's internal applied level is 50 with
the 50% duty plan (`on = off = 2000 = M`) and the output driven off, so the
applied level and the stored bus level disagree. -/
theorem initial_state_mismatch (now : ℤ) :
    (powerControlInit now).2.power_level = 0 ∧
    (powerControlInit now).1.power_level = 50 ∧
    (powerControlInit now).1.on_ms = 2000 ∧
    (powerControlInit now).1.off_ms = 2000 ∧
    (powerControlInit now).1.power_on = false ∧
    (powerControlInit now).2.power_level ≠ (powerControlInit now).1.power_level := by
  refine ⟨rfl, rfl, ?_, ?_, ?_, ?_⟩
  · show (pulseDurations 2000 (50 : ℚ)).1 = 2000
    norm_num [pulseDurations]
  · show (pulseDurations 2000 (50 : ℚ)).2 = 2000
    norm_num [pulseDurations]
  · show decide ((50 : ℚ) < (50 : ℚ)) = false
    decide
  · show (0 : ℚ) ≠ (50 : ℚ)
    norm_num

/-- C2: starting from the Active state (`standby = false`), `poll_it` enters
Standby exactly when the bus timestamp is unchanged from the one last seen,
the applied level exceeds the fallback level, and the elapsed time since the
last seen update strictly exceeds the timeout; on entry the applied level
becomes the fallback level.  From Standby, the very next poll that observes
a differing bus timestamp returns to Active, regardless of the level value:
the timestamp check precedes the timeout check. -/
theorem standby_state_transitions (now : ℤ) (bus : PowerRecord) (s : PCState) :
    (s.standby = false →
      ((poll_it now bus s).1.standby = true ↔
        bus.last_update_ms = s.last_update_ms ∧
        s.standby_power_level < s.power_level ∧
        s.standby_timeout < now - s.last_update_ms)) ∧
    (s.standby = false →
      bus.last_update_ms = s.last_update_ms →
      s.standby_power_level < s.power_level →
      s.standby_timeout < now - s.last_update_ms →
      (poll_it now bus s).1.power_level = s.standby_power_level) ∧
    (s.standby = true →
      bus.last_update_ms ≠ s.last_update_ms →
      (poll_it now bus s).1.standby = false) := by
  refine ⟨?_, ?_, ?_⟩
  · intro hsb
    by_cases hts : bus.last_update_ms = s.last_update_ms
    · by_cases hcond : s.standby_power_level < s.power_level ∧
        s.standby_timeout < now - s.last_update_ms
      · rw [poll_it_standby_entry now bus s hts.symm ⟨hsb, hcond.1, hcond.2⟩]
        exact iff_of_true rfl ⟨hts, hcond⟩
      · rw [poll_it_no_event now bus s hts.symm
          (fun h => hcond ⟨h.2.1, h.2.2⟩), pulse_flip_standby, hsb]
        exact iff_of_false (by simp) (fun h => hcond ⟨h.2.1, h.2.2⟩)
    · rw [(poll_it_ts_changed now bus s (fun h => hts h.symm)).1]
      exact iff_of_false (by simp) (fun h => hts h.1)
  · intro hsb hts hlv htm
    rw [poll_it_standby_entry now bus s hts.symm ⟨hsb, hlv, htm⟩]
    rfl
  · intro _ hts
    exact (poll_it_ts_changed now bus s (fun h => hts h.symm)).1

/-- C2 witness: with fallback level 20, timeout 60000 ms and applied level
60, a poll at elapsed time 60001 with no bus update enters Standby and the
applied level becomes 20. -/
theorem standby_state_transitions_witness :
    (poll_it 60001 standby_demo_bus standby_demo_state).1.standby = true ∧
    (poll_it 60001 standby_demo_bus standby_demo_state).1.power_level = 20 :=
  ⟨((standby_state_transitions 60001 standby_demo_bus standby_demo_state).1
      rfl).mpr ⟨rfl, by decide, by decide⟩,
   (standby_state_transitions 60001 standby_demo_bus standby_demo_state).2.1
      rfl rfl (by decide) (by decide)⟩

/-- C6: `poll_it` never writes the bus record, so entering Standby applies
the fallback level while the bus's stored level stays untouched; and from
Standby, the next poll that observes a new bus timestamp leaves Standby and
restores the bus's stored level as the applied level. -/
theorem standby_preserves_bus (now : ℤ) (bus : PowerRecord) (s : PCState) :
    (poll_it now bus s).2 = bus ∧
    (s.standby = false →
      bus.last_update_ms = s.last_update_ms →
      s.standby_power_level < s.power_level →
      s.standby_timeout < now - s.last_update_ms →
      (poll_it now bus s).1.power_level = s.standby_power_level) ∧
    (s.standby = true →
      bus.last_update_ms ≠ s.last_update_ms →
      (poll_it now bus s).1.standby = false ∧
      (poll_it now bus s).1.power_level = bus.power_level) := by
  refine ⟨poll_it_bus_unchanged now bus s, ?_, ?_⟩
  · intro hsb hts hlv htm
    rw [poll_it_standby_entry now bus s hts.symm ⟨hsb, hlv, htm⟩]
    rfl
  · intro _ hts
    exact poll_it_ts_changed now bus s (fun h => hts h.symm)

/-- C6 witness: a standby engine (applied level 20, original request 60
still stored on the bus) polled after a fresh bus timestamp leaves Standby
and the applied level is restored to the stored 60. -/
theorem standby_preserves_bus_witness :
    (poll_it 70001 refreshed_bus standby_active_state).1.standby = false ∧
    (poll_it 70001 refreshed_bus standby_active_state).1.power_level =
      refreshed_bus.power_level :=
  (standby_preserves_bus 70001 refreshed_bus standby_active_state).2.2
    rfl (by decide)

/-- C4 counterexample: the Command Gateway path performs no range clamp, so
the datagram value 150 is stored as 150, outside `[0, 100]`, refuting the
invariant that every stored `power_level` lies within `[0, 100]`. -/
theorem gateway_write_exceeds_range :
    set_power_level [("power_level", JValue.num 150)] = some 150 ∧
    ¬ ((150 : ℚ) ≤ 100) := by
  constructor
  · have hl : lookupField [("power_level", JValue.num 150)] "power_level" =
        some (JValue.num 150) := rfl
    have hr : pyRound1 150 = 150 := by
      unfold pyRound1 roundHalfEven
      norm_num
    unfold set_power_level
    rw [hl]
    show some (pyRound1 150) = some 150
    rw [hr]
  · norm_num

/-- C4 amended: every `power_level` written to the `powercontrol` topic is
rounded to one decimal place (an integer number of tenths); the PID Bridge
write is additionally clamped to `[0, 100]`, but the gateway's
`set_power_level` stores the rounded value with no range clamp. -/
theorem power_write_precision (q out v : ℚ) :
    (∃ n : ℤ, pyRound1 q = (n : ℚ) / 10) ∧
    0 ≤ pid_power_write out ∧
    pid_power_write out ≤ 100 ∧
    (∃ m : ℤ, pid_power_write out = (m : ℚ) / 10) ∧
    set_power_level [("power_level", JValue.num v)] = some (pyRound1 v) := by
  have hc0 : (0 : ℚ) ≤ max (min out 100) 0 := le_max_right _ _
  have hc100 : max (min out 100) 0 ≤ 100 := max_le (min_le_right _ _) (by norm_num)
  refine ⟨⟨roundHalfEven (q * 10), rfl⟩, ?_, ?_,
    ⟨roundHalfEven (max (min out 100) 0 * 10), rfl⟩, ?_⟩
  · have h1 : (0 : ℤ) ≤ roundHalfEven (max (min out 100) 0 * 10) :=
      roundHalfEven_nonneg _ (by positivity)
    show (0 : ℚ) ≤ ((roundHalfEven (max (min out 100) 0 * 10) : ℤ) : ℚ) / 10
    apply div_nonneg _ (by norm_num)
    exact_mod_cast h1
  · have h2 : roundHalfEven (max (min out 100) 0 * 10) ≤ 1000 :=
      roundHalfEven_le _ 1000 (by push_cast; linarith)
    show ((roundHalfEven (max (min out 100) 0 * 10) : ℤ) : ℚ) / 10 ≤ 100
    rw [div_le_iff₀ (by norm_num : (0 : ℚ) < 10)]
    calc ((roundHalfEven (max (min out 100) 0 * 10) : ℤ) : ℚ) ≤ 1000 := by
          exact_mod_cast h2
      _ = 100 * 10 := by norm_num
  · exact rfl

/-- C7 counterexample: the claim's example datagram carries only `method`
and `params` — it has no `jsonrpc` field — and `process_request` (line 269)
drops any request missing that field before reaching `set_power_level`, so
processing it stores nothing: the stored `power_level` does not become
`42.3`. -/
theorem example_datagram_not_stored :
    process_request
      { jsonrpc := none
        method := some (JValue.str "set_power_level")
        params := some [("power_level", JValue.str "42.26")] } =
      Except.ok none :=
  rfl

/-- C7 amended: `GetCommand.set_power_level` parses the `power_level` value
as a number, rounds it to one decimal place, and writes it; on a missing
field or a parse failure it writes nothing and raises nothing.  A datagram
carrying the full JSON-RPC envelope (`jsonrpc`, `method` and `params`) with
the value `"42.26"` is processed into a write of `42.3`; the claim's
example datagram, which lacks `jsonrpc`, is instead dropped (see the
counterexample above). -/
theorem set_power_level_rounding :
    (∀ p, lookupField p "power_level" = none → set_power_level p = none) ∧
    (∀ p v, lookupField p "power_level" = some v → pyFloat v = none →
      set_power_level p = none) ∧
    (∀ p v q, lookupField p "power_level" = some v → pyFloat v = some q →
      set_power_level p = some (pyRound1 q)) ∧
    set_power_level [("power_level", JValue.str "42.26")] = some (423 / 10) ∧
    process_request
      { jsonrpc := some (JValue.str "2.0")
        method := some (JValue.str "set_power_level")
        params := some [("power_level", JValue.str "42.26")] } =
      Except.ok (some (BusAction.writePower (423 / 10))) := by
  have hgen : ∀ p v q, lookupField p "power_level" = some v → pyFloat v = some q →
      set_power_level p = some (pyRound1 q) := by
    intro p v q h1 h2
    unfold set_power_level
    rw [h1]
    dsimp only
    rw [h2]
  have hparse : pyFloat (JValue.str "42.26") = some (2113 / 50) := by
    have h1 : pyFloat (JValue.str "42.26") =
        some ((1 : ℚ) * ((digitsVal ['4', '2'] : ℚ) +
          (digitsVal ['2', '6'] : ℚ) /
            (10 : ℚ) ^ (['2', '6'] : List Char).length)) := rfl
    have hd1 : digitsVal ['4', '2'] = 42 := by decide
    have hd2 : digitsVal ['2', '6'] = 26 := by decide
    rw [h1, hd1, hd2]
    norm_num
  have hround : pyRound1 (2113 / 50) = 423 / 10 := by
    unfold pyRound1 roundHalfEven
    norm_num
  have hconc : set_power_level [("power_level", JValue.str "42.26")] =
      some (423 / 10) := by
    rw [hgen [("power_level", JValue.str "42.26")] (JValue.str "42.26")
      (2113 / 50) rfl hparse, hround]
  refine ⟨?_, ?_, hgen, hconc, ?_⟩
  · intro p h
    unfold set_power_level
    rw [h]
  · intro p v h1 h2
    unfold set_power_level
    rw [h1]
    dsimp only
    rw [h2]
  · show Except.ok ((set_power_level
        [("power_level", JValue.str "42.26")]).map BusAction.writePower) =
      Except.ok (some (BusAction.writePower (423 / 10)))
    rw [hconc]
    rfl

/-- C7 witness: the missing-field clause of the theorem at the empty
parameter object: nothing is written. -/
theorem set_power_level_rounding_witness : set_power_level [] = none :=
  set_power_level_rounding.1 [] rfl

/-- C8 counterexample: a datagram whose text is not valid JSON makes
`json.loads` raise `ValueError`, which the `try` in `GetCommand.poll_it`
does not catch (it catches only `OSError`), so the poll does not complete
without raising, refuting the claim for this malformed payload. -/
theorem bad_json_uncaught :
    udp_handle (Datagram.badJson "power") = Except.error PyError.valueError :=
  rfl

/-- C8 amended: requests missing `jsonrpc`, `method` or `params`, and
`set_power_level` requests with a non-numeric level, are dropped silently
with no write; but payloads failing byte decoding or JSON parsing raise an
exception that propagates out of the poll, since only `OSError` (the
no-data case) is caught. -/
theorem malformed_request_handling (r : Request) (s' : String) (v : JValue) :
    (r.jsonrpc = none → process_request r = Except.ok none) ∧
    (r.method = none → process_request r = Except.ok none) ∧
    (r.params = none → process_request r = Except.ok none) ∧
    (pyFloat v = none →
      process_request
        { jsonrpc := some (JValue.str "2.0")
          method := some (JValue.str "set_power_level")
          params := some [("power_level", v)] } = Except.ok none) ∧
    udp_handle Datagram.badBytes = Except.error PyError.unicodeError ∧
    udp_handle (Datagram.badJson s') = Except.error PyError.valueError ∧
    udp_handle Datagram.noData = Except.ok none := by
  obtain ⟨j, m, p⟩ := r
  refine ⟨?_, ?_, ?_, ?_, rfl, rfl, rfl⟩
  · intro h
    replace h : j = none := h
    subst h
    rfl
  · intro h
    replace h : m = none := h
    subst h
    cases j with
    | none => rfl
    | some jv => rfl
  · intro h
    replace h : p = none := h
    subst h
    cases j with
    | none => rfl
    | some jv =>
      cases m with
      | none => rfl
      | some mv => rfl
  · intro hv
    have hs : set_power_level [("power_level", v)] = none := by
      calc set_power_level [("power_level", v)]
          = (match pyFloat v with
             | none => none
             | some q => some (pyRound1 q) : Option ℚ) := rfl
        _ = none := by rw [hv]
    show Except.ok ((set_power_level [("power_level", v)]).map BusAction.writePower) =
      Except.ok none
    rw [hs]
    rfl

/-- C8 witness: a request with all three envelope fields missing is dropped
with no action and no exception. -/
theorem malformed_request_handling_witness :
    process_request { jsonrpc := none, method := none, params := none } =
      Except.ok none :=
  (malformed_request_handling { jsonrpc := none, method := none, params := none }
    "" JValue.null).1 rfl

/-- C9: a well-formed `pid_update` datagram does not merge its params into
the `pid_settings` topic: the handler evaluates the undefined name `rquest`
(line 281) and raises `NameError` before any write; moreover the topic the
gateway would write (`"pid_settings"`, line 283) is not the topic the PID
bridge watches (`"pid_control"`, line 334), so the bridge could not observe
the update even without the typo. -/
theorem pid_update_name_error :
    process_request
      { jsonrpc := some (JValue.str "2.0")
        method := some (JValue.str "pid_update")
        params := some [("current_temperature", JValue.num 95)] } =
      Except.error PyError.nameError ∧
    pid_update_write_topic ≠ pid_bridge_watch_topic := by
  constructor
  · rfl
  · decide
